import Mathlib

/-!
# Verification of the browser supervisor of `rust-headless-chrome`

A shallow embedding of `src/browser/mod.rs`: the fan-out worker that
translates `Target.*` events into the tab registry
(`Browser::handle_browser_level_events`), browser construction
(`Browser::create_browser`), teardown (`impl Drop for Browser`),
executable discovery (`default_executable`), and the waiter-based
`Browser::wait_for_initial_tab`.

Pure data is embedded directly.  Effects are made explicit:
the tab set is a `List Tab` threaded through a step function, a panic
(`.expect`) is `Option.none`, fallible calls are `Except`, and the
wall-clock polling of the waiter is abstracted into the finite sequence
of tab-set snapshots the poll closure observes before the deadline.
-/

namespace HeadlessChrome

/-- The type of a debuggable target, as carried in `TargetInfo`
(`protocol::target::TargetType`).  The supervisor only ever asks
`is_page`; the remaining constructors cover the other CDP target kinds
named by the spec (service workers, shared workers, the browser itself). -/
inductive TargetType where
  | page
  | serviceWorker
  | sharedWorker
  | browserTarget
  | otherTarget
  deriving DecidableEq, Repr

/-- Embeds `TargetType::is_page`: true exactly on targets of type `"page"`. -/
def TargetType.is_page : TargetType → Bool
  | .page => true
  | _ => false

/-- Embeds `protocol::target::TargetInfo`: the fields the supervisor consults
(`target_id`, `target_type`) plus the payload carried into
`latest_target_info` (here abstracted to the url). -/
structure TargetInfo where
  target_id : String
  target_type : TargetType
  url : String
  deriving DecidableEq, Repr

/-- A `Tab` handle as the supervisor sees it: keyed by `target_id`,
holding the latest `TargetInfo` (the guarded `latest_target_info` cell). -/
structure Tab where
  target_id : String
  latest_target_info : TargetInfo
  deriving DecidableEq, Repr

/-- Embeds `Tab::new(target_info, transport)`: constructs a handle for the
target described by `target_info`.  (On the happy path the handle's id is
the target's id and its info cell starts at `target_info`.) -/
def Tab.new (target_info : TargetInfo) : Tab :=
  { target_id := target_info.target_id, latest_target_info := target_info }

/-- Embeds `Tab::get_target_id`. -/
def Tab.get_target_id (tab : Tab) : String :=
  tab.target_id

/-- Embeds `Tab::update_target_info`: overwrite the guarded
`latest_target_info` cell. -/
def Tab.update_target_info (tab : Tab) (target_info : TargetInfo) : Tab :=
  { tab with latest_target_info := target_info }

/-- The browser-level events matched by the fan-out worker
(`protocol::Event`); every unmatched variant is `otherEvent` (the
worker's `_` arm, which only logs). -/
inductive Event where
  | targetCreated (target_info : TargetInfo)
  | targetInfoChanged (target_info : TargetInfo)
  | targetDestroyed (target_id : String)
  | otherEvent
  deriving DecidableEq, Repr

/-- The shared tab registry `Arc<Mutex<Vec<Arc<Tab>>>>`, with the lock
made implicit: the worker holds it for the whole of each mutation. -/
structure BrowserState where
  tabs : List Tab
  deriving DecidableEq, Repr

/-- Update the first tab whose `target_id` matches, as the worker's
`locked_tabs.iter().find(..)` + `update_target_info` does. -/
def updateFirstTab : List Tab → TargetInfo → List Tab
  | [], _ => []
  | tab :: rest, target_info =>
    if tab.get_target_id = target_info.target_id then
      tab.update_target_info target_info :: rest
    else
      tab :: updateFirstTab rest target_info

/-- One `Ok(event)` arm of the worker loop in
`Browser::handle_browser_level_events`:
* `TargetCreated`: if `target_info.target_type.is_page()`, push
  `Tab::new target_info` onto the tab set; otherwise do nothing;
* `TargetInfoChanged`: if it is a page, find the tab by id —
  `.expect(..)` panics when none matches (modelled as `none`) — and
  update its info;
* `TargetDestroyed` and every other event: log only, state unchanged.
`none` models the worker thread panicking. -/
def handleEvent (s : BrowserState) : Event → Option BrowserState
  | .targetCreated target_info =>
    if target_info.target_type.is_page then
      some { tabs := s.tabs ++ [Tab.new target_info] }
    else
      some s
  | .targetInfoChanged target_info =>
    if target_info.target_type.is_page then
      if s.tabs.any (fun tab => tab.get_target_id = target_info.target_id) then
        some { tabs := updateFirstTab s.tabs target_info }
      else
        none
    else
      some s
  | .targetDestroyed _ => some s
  | .otherEvent => some s

/-- Result of the non-blocking `shutdown_rx.try_recv()` at the top of
each worker iteration. -/
inductive ShutdownPoll where
  | token
  | disconnected
  | empty
  deriving DecidableEq, Repr

/-- Result of `events_rx.recv_timeout(Duration::from_millis(20_000))`. -/
inductive RecvResult where
  | timeout
  | disconnected
  | event (e : Event)
  deriving DecidableEq, Repr

/-- The pair of channel observations one worker iteration can make.  The
shutdown poll comes first in the loop body; the receive is only reached
when the poll returns `Empty`. -/
structure LoopInput where
  shutdownPoll : ShutdownPoll
  recv : RecvResult
  deriving DecidableEq, Repr

/-- How the worker loop ended. -/
inductive LoopOutcome where
  | shutdownExit (s : BrowserState)
  | recvExit (s : BrowserState)
  | panicked (s : BrowserState)
  | stillRunning (s : BrowserState)
  deriving DecidableEq, Repr

/-- The receive window of the worker's event read, in milliseconds
(`Duration::from_millis(20_000)`). -/
def recvTimeoutMillis : Nat := 20000

/-- The worker loop of `Browser::handle_browser_level_events`, run over
the finite sequence of channel observations it makes: each iteration
first polls shutdown non-blockingly (`Ok` or `Disconnected` break the
loop before any receive), then receives with the 20-second window
(`Timeout` or `Disconnected` break the loop), then handles the event
(which can panic).  `stillRunning` marks exhaustion of the observation
sequence with the loop still alive. -/
def runWorkerLoop (s : BrowserState) : List LoopInput → LoopOutcome
  | [] => .stillRunning s
  | input :: rest =>
    match input.shutdownPoll with
    | .token => .shutdownExit s
    | .disconnected => .shutdownExit s
    | .empty =>
      match input.recv with
      | .timeout => .recvExit s
      | .disconnected => .recvExit s
      | .event e =>
        match handleEvent s e with
        | none => .panicked s
        | some s2 => runWorkerLoop s2 rest

/-- The environment `default_executable` consults: the PATH lookups done
through `which`, the platform `cfg` flags, the macOS default install
check and the Windows registry lookup.  `$BROWSER` is part of the
environment (the spec names it) even though the function body never
reads it — `browser_env_is_chromium` records whether it points at a
Chromium-class binary. -/
structure ExecEnv where
  browser_env : Option String
  browser_env_is_chromium : Bool
  which_results : String → Option String
  is_macos : Bool
  macos_default_exists : Bool
  is_windows : Bool
  registry_path : Option String
  registry_path_exists : Bool

/-- The single macOS default install path probed by `default_executable`. -/
def macosDefaultPath : String :=
  "/Applications/Google Chrome.app/Contents/MacOS/Google Chrome"

/-- The error message `default_executable` returns when every probe fails. -/
def noChromeErrorMsg : String := "Could not auto detect a chrome executable"

/-- Embeds `default_executable()` from `src/browser/mod.rs`: try `which` on
`google-chrome-stable` then `chromium`; then (under `cfg(macos)`) the
default install path; then (under `cfg(windows)`) the registry lookup,
accepted only if the path exists; otherwise the error string.  The
`$BROWSER` variable is only a `TODO` comment in the body and is never
consulted. -/
def default_executable (env : ExecEnv) : Except String String :=
  match env.which_results "google-chrome-stable" with
  | some path => .ok path
  | none =>
    match env.which_results "chromium" with
    | some path => .ok path
    | none =>
      if env.is_macos && env.macos_default_exists then
        .ok macosDefaultPath
      else
        match (if env.is_windows then env.registry_path else none) with
        | some path =>
          if env.registry_path_exists then .ok path else .error noChromeErrorMsg
        | none => .error noChromeErrorMsg

/-- The waiter's only failure mode. -/
inductive WaitError where
  | timeout
  deriving DecidableEq, Repr

/-- Modelled from the spec: `util::Wait` (§4.7, not under `src/`) —
`Wait::with_timeout(d).until(predicate)` polls the predicate until it
returns `Some`, failing with `Timeout` once the wall-clock deadline
passes.  The polls that fit before the deadline are abstracted into the
finite list of predicate results observed; an exhausted list is the
deadline passing with every poll having returned `None`. -/
def waitUntil {α : Type} : List (Option α) → Except WaitError α
  | [] => .error .timeout
  | some a :: _ => .ok a
  | none :: rest => waitUntil rest

/-- The deadline `Browser::wait_for_initial_tab` hands the waiter
(`Duration::from_secs(10)`). -/
def initialTabTimeoutSecs : Nat := 10

/-- Embeds `Browser::wait_for_initial_tab`: poll the tab set, returning a clone
of its first element (`tabs.lock().unwrap().first()`), through the
waiter.  `obs` is the sequence of tab-set snapshots the poll closure
reads under the lock before the 10-second deadline. -/
def wait_for_initial_tab (obs : List (List Tab)) : Except WaitError Tab :=
  waitUntil (obs.map List.head?)

/-- The observable steps of `Browser::create_browser`, in program order. -/
inductive CreateStep where
  | registerBrowserListener
  | spawnFanOutWorker
  | callSetDiscoverTargets (discover : Bool)
  | waitForInitialTab
  deriving DecidableEq, Repr

/-- The two ways `Browser::create_browser` can fail after the transport
exists: the `?` on `call_method(SetDiscoverTargets ..)`, and the `?` on
`wait_for_initial_tab`. -/
inductive CreateError where
  | setDiscoverTargetsFailed
  | initialTabTimeout
  deriving DecidableEq, Repr

/-- Embeds `Browser::create_browser`: register the browser-event listener and
spawn the fan-out worker, then call
`SetDiscoverTargets { discover: true }` (early return on failure), then
wait for the initial tab (early return on timeout), then `Ok(browser)`.
Returns the trace of steps performed and `none` for `Ok`.
`setDiscoverOk` is whether the `SetDiscoverTargets` round-trip
succeeded; `obs` feeds `wait_for_initial_tab`. -/
def create_browser (setDiscoverOk : Bool) (obs : List (List Tab)) :
    List CreateStep × Option CreateError :=
  let leadingSteps := [CreateStep.registerBrowserListener, CreateStep.spawnFanOutWorker,
    CreateStep.callSetDiscoverTargets true]
  if setDiscoverOk then
    match wait_for_initial_tab obs with
    | .ok _ => (leadingSteps ++ [CreateStep.waitForInitialTab], none)
    | .error _ => (leadingSteps ++ [CreateStep.waitForInitialTab], some .initialTabTimeout)
  else
    (leadingSteps, some .setDiscoverTargetsFailed)

/-- The teardown actions of dropping a `Browser`. -/
inductive TeardownStep where
  | sendShutdownToken
  | transportShutdown
  | dropProcess
  | dropTransport
  | dropTabs
  | dropShutdownSender
  deriving DecidableEq, Repr

/-- Embeds `impl Drop for Browser`: the explicit body sends the shutdown token
on `loop_shutdown_tx` and calls `transport.shutdown()` (closing the
socket); afterwards the fields drop in declaration order — `process`
(killing the child), `transport`, `tabs`, `loop_shutdown_tx`. -/
def browserDropTrace : List TeardownStep :=
  [.sendShutdownToken, .transportShutdown,
   .dropProcess, .dropTransport, .dropTabs, .dropShutdownSender]

/-! ## Helper lemmas about the tab-set update -/

theorem updateFirstTab_length (tabs : List Tab) (target_info : TargetInfo) :
    (updateFirstTab tabs target_info).length = tabs.length := by
  induction tabs with
  | nil => rfl
  | cons tab rest ih =>
    by_cases h : tab.get_target_id = target_info.target_id <;>
      simp [updateFirstTab, h, ih]

theorem updateFirstTab_nonmatching (tabs : List Tab) (target_info : TargetInfo)
    (i : Nat) (t : Tab) (hget : tabs[i]? = some t)
    (hne : t.get_target_id ≠ target_info.target_id) :
    (updateFirstTab tabs target_info)[i]? = some t := by
  induction tabs generalizing i with
  | nil => simp at hget
  | cons tab rest ih =>
    by_cases h : tab.get_target_id = target_info.target_id
    · cases i with
      | zero =>
        simp at hget
        subst hget
        exact absurd h hne
      | succ j =>
        simp only [List.getElem?_cons_succ] at hget
        simpa [updateFirstTab, h] using hget
    · cases i with
      | zero =>
        simp at hget
        subst hget
        simp [updateFirstTab, h]
      | succ j =>
        simp only [List.getElem?_cons_succ] at hget
        simpa [updateFirstTab, h] using ih j hget

theorem updateFirstTab_first_match (tabs : List Tab) (target_info : TargetInfo)
    (hk : ∃ t ∈ tabs, t.get_target_id = target_info.target_id) :
    ∃ (i : Nat) (t : Tab), tabs[i]? = some t ∧
      t.get_target_id = target_info.target_id ∧
      (updateFirstTab tabs target_info)[i]? =
        some (t.update_target_info target_info) := by
  induction tabs with
  | nil => simp at hk
  | cons tab rest ih =>
    by_cases h : tab.get_target_id = target_info.target_id
    · refine ⟨0, tab, by simp, h, ?_⟩
      simp [updateFirstTab, h]
    · obtain ⟨t, ht, hid⟩ := hk
      rcases List.mem_cons.mp ht with heq | hmem
      · exact absurd (heq ▸ hid) h
      · obtain ⟨i, t2, hget, hid2, hupd⟩ := ih ⟨t, hmem, hid⟩
        refine ⟨i + 1, t2, ?_, hid2, ?_⟩
        · simpa using hget
        · simp only [updateFirstTab, if_neg h, List.getElem?_cons_succ]
          exact hupd

/-! ## Claims about the fan-out worker's event handling -/

/-- C1: a `Target.targetCreated` event appends a freshly constructed
`Tab` handle to the tab set exactly when the target's type is `"page"`;
any other target type leaves the tab set unchanged (and the handler
never panics on `targetCreated`). -/
theorem targetCreated_appends_iff_page (s : BrowserState) (target_info : TargetInfo) :
    (target_info.target_type.is_page = true →
      handleEvent s (Event.targetCreated target_info) =
        some { tabs := s.tabs ++ [Tab.new target_info] }) ∧
    (target_info.target_type.is_page = false →
      handleEvent s (Event.targetCreated target_info) = some s) := by
  constructor <;> intro h <;> simp [handleEvent, h]

/-- Concrete page and non-page target descriptions used in witnesses. -/
def pageInfoA : TargetInfo :=
  { target_id := "t1", target_type := TargetType.page, url := "about:blank" }

def workerInfoA : TargetInfo :=
  { target_id := "w1", target_type := TargetType.serviceWorker, url := "sw.js" }

theorem targetCreated_appends_iff_page_witness :
    TargetType.page.is_page = true ∧
    handleEvent { tabs := [] } (Event.targetCreated pageInfoA) =
      some { tabs := [] ++ [Tab.new pageInfoA] } ∧
    TargetType.serviceWorker.is_page = false ∧
    handleEvent { tabs := [] } (Event.targetCreated workerInfoA) =
      some { tabs := [] } :=
  ⟨rfl, (targetCreated_appends_iff_page { tabs := [] } pageInfoA).1 rfl,
   rfl, (targetCreated_appends_iff_page { tabs := [] } workerInfoA).2 rfl⟩

/-- C4 (counterexample): the worker does NOT remove a tab on
`Target.targetDestroyed` — with the tab for `"t1"` in the set, a
`targetDestroyed` event for `"t1"` leaves the set holding that very tab. -/
theorem targetDestroyed_does_not_remove_cex :
    (Tab.new pageInfoA).get_target_id = "t1" ∧
    handleEvent { tabs := [Tab.new pageInfoA] } (Event.targetDestroyed "t1") =
      some { tabs := [Tab.new pageInfoA] } :=
  ⟨rfl, rfl⟩

/-- C4 (amended): on `Target.targetDestroyed` the worker only logs; the
tab set is left exactly unchanged, so tabs are retained until explicit
destruction. -/
theorem targetDestroyed_leaves_tabs_unchanged (s : BrowserState) (target_id : String) :
    handleEvent s (Event.targetDestroyed target_id) = some s :=
  rfl

/-- C7: a `Target.targetInfoChanged` event about a known page updates
the matching tab's `latest_target_info` (under the tab-set lock) and
leaves every other tab in the set unchanged, at its position. -/
theorem targetInfoChanged_updates_only_matching (s : BrowserState)
    (target_info : TargetInfo)
    (hp : target_info.target_type.is_page = true)
    (hk : ∃ t ∈ s.tabs, t.get_target_id = target_info.target_id) :
    handleEvent s (Event.targetInfoChanged target_info) =
      some { tabs := updateFirstTab s.tabs target_info } ∧
    (updateFirstTab s.tabs target_info).length = s.tabs.length ∧
    (∀ (i : Nat) (t : Tab), s.tabs[i]? = some t →
      t.get_target_id ≠ target_info.target_id →
      (updateFirstTab s.tabs target_info)[i]? = some t) ∧
    (∃ (i : Nat) (t : Tab), s.tabs[i]? = some t ∧
      t.get_target_id = target_info.target_id ∧
      (updateFirstTab s.tabs target_info)[i]? =
        some (t.update_target_info target_info)) := by
  refine ⟨?_, updateFirstTab_length s.tabs target_info,
    fun i t hget hne => updateFirstTab_nonmatching s.tabs target_info i t hget hne,
    updateFirstTab_first_match s.tabs target_info hk⟩
  obtain ⟨t, ht, hid⟩ := hk
  have hany : s.tabs.any (fun tab => tab.get_target_id = target_info.target_id) = true := by
    simp only [List.any_eq_true, decide_eq_true_eq]
    exact ⟨t, ht, hid⟩
  simp [handleEvent, hp, hany]

/-- A second page target with the same id `"t1"` but new info. -/
def pageInfoA2 : TargetInfo :=
  { target_id := "t1", target_type := TargetType.page, url := "https://example.com" }

theorem targetInfoChanged_updates_only_matching_witness :
    pageInfoA2.target_type.is_page = true ∧
    (∃ t ∈ [Tab.new pageInfoA], t.get_target_id = pageInfoA2.target_id) ∧
    handleEvent { tabs := [Tab.new pageInfoA] } (Event.targetInfoChanged pageInfoA2) =
      some { tabs := updateFirstTab [Tab.new pageInfoA] pageInfoA2 } :=
  ⟨rfl, ⟨Tab.new pageInfoA, by simp, rfl⟩,
   (targetInfoChanged_updates_only_matching { tabs := [Tab.new pageInfoA] } pageInfoA2
      rfl ⟨Tab.new pageInfoA, by simp, rfl⟩).1⟩

/-- C10: a `Target.targetInfoChanged` event whose target type is
`"page"` but whose `target_id` matches no tab makes the worker panic
(the `.expect` on the lookup, modelled as `none`): handling of
`targetInfoChanged` is not total over page events. -/
theorem targetInfoChanged_unknown_page_panics (s : BrowserState)
    (target_info : TargetInfo)
    (hp : target_info.target_type.is_page = true)
    (hn : ∀ t ∈ s.tabs, t.get_target_id ≠ target_info.target_id) :
    handleEvent s (Event.targetInfoChanged target_info) = none := by
  have hany : s.tabs.any (fun tab => tab.get_target_id = target_info.target_id) = false := by
    simp only [List.any_eq_false, decide_eq_true_eq]
    exact hn
  simp [handleEvent, hp, hany]

theorem targetInfoChanged_unknown_page_panics_witness :
    pageInfoA.target_type.is_page = true ∧
    (∀ t ∈ ([] : List Tab), t.get_target_id ≠ pageInfoA.target_id) ∧
    handleEvent { tabs := [] } (Event.targetInfoChanged pageInfoA) = none :=
  ⟨rfl, by simp,
   targetInfoChanged_unknown_page_panics { tabs := [] } pageInfoA rfl (by simp)⟩

/-! ## Claims about the worker loop's channel discipline -/

/-- C8: the worker's event receive uses a 20-second window
(`recv_timeout(Duration::from_millis(20_000))`); when it elapses with no
event, the worker logs and exits its loop at once — no later input is
processed, whatever the rest of the observation sequence holds. -/
theorem recv_timeout_exits_loop (s : BrowserState) (rest : List LoopInput) :
    recvTimeoutMillis = 20000 ∧
    runWorkerLoop s ({ shutdownPoll := .empty, recv := .timeout } :: rest) =
      LoopOutcome.recvExit s :=
  ⟨rfl, rfl⟩

/-- C9: the shutdown poll comes before the event receive in every
iteration; the moment it observes the token (`Ok`) or the channel's
disconnection, the worker exits with `shutdownExit` — without touching
the event receive of that iteration and regardless of any later input. -/
theorem shutdown_observed_exits_before_recv (s : BrowserState) (input : LoopInput)
    (rest : List LoopInput) (h : input.shutdownPoll ≠ ShutdownPoll.empty) :
    runWorkerLoop s (input :: rest) = LoopOutcome.shutdownExit s := by
  obtain ⟨poll, recv⟩ := input
  cases poll with
  | token => rfl
  | disconnected => rfl
  | empty => exact absurd rfl h

theorem shutdown_observed_exits_before_recv_witness :
    ({ shutdownPoll := ShutdownPoll.token, recv := RecvResult.event Event.otherEvent } :
        LoopInput).shutdownPoll ≠ ShutdownPoll.empty ∧
    runWorkerLoop { tabs := [] }
      [{ shutdownPoll := ShutdownPoll.token, recv := RecvResult.event Event.otherEvent }] =
      LoopOutcome.shutdownExit { tabs := [] } :=
  ⟨by decide, shutdown_observed_exits_before_recv { tabs := [] } _ [] (by decide)⟩

/-! ## Claim about teardown order -/

/-- C5: dropping a `Browser` sends the shutdown token to the fan-out
worker first, calls `transport.shutdown()` second, and drops the child
process (killing it) only after both — the three steps occur in the
trace in exactly that order. -/
theorem browser_drop_order :
    browserDropTrace.indexOf TeardownStep.sendShutdownToken = 0 ∧
    browserDropTrace.indexOf TeardownStep.sendShutdownToken <
      browserDropTrace.indexOf TeardownStep.transportShutdown ∧
    browserDropTrace.indexOf TeardownStep.transportShutdown <
      browserDropTrace.indexOf TeardownStep.dropProcess ∧
    TeardownStep.sendShutdownToken ∈ browserDropTrace ∧
    TeardownStep.transportShutdown ∈ browserDropTrace ∧
    TeardownStep.dropProcess ∈ browserDropTrace := by
  decide

/-! ## Claims about executable discovery -/

/-- An environment whose only usable browser is the one `$BROWSER`
points at: both PATH probes miss, no macOS install, no Windows registry. -/
def envBrowserOnly : ExecEnv :=
  { browser_env := some "/opt/bin/chromium-dev"
    browser_env_is_chromium := true
    which_results := fun _ => none
    is_macos := false
    macos_default_exists := false
    is_windows := false
    registry_path := none
    registry_path_exists := false }

/-- C2 (counterexample): with `$BROWSER` pointing at a Chromium-class
binary but every probe the code actually performs failing,
`default_executable` returns the error — so it does not consult
`$BROWSER` first (or at all), and it can fail even when the `$BROWSER`
step the claim lists would have succeeded. -/
theorem default_executable_ignores_browser_env_cex :
    envBrowserOnly.browser_env = some "/opt/bin/chromium-dev" ∧
    envBrowserOnly.browser_env_is_chromium = true ∧
    default_executable envBrowserOnly = Except.error noChromeErrorMsg :=
  ⟨rfl, rfl, rfl⟩

/-- C2 (amended): `default_executable` never consults `$BROWSER` (it is
only a `TODO` comment); it probes, in order, `google-chrome-stable` on
PATH, then `chromium` on PATH, then the macOS default install path (on
macOS), then the Windows registry lookup (on Windows, accepted only when
the path exists), and returns an error exactly when all of those fail. -/
theorem default_executable_search_order (env : ExecEnv) :
    (∀ b c, default_executable
        { env with browser_env := b, browser_env_is_chromium := c } =
      default_executable env) ∧
    (∀ p, env.which_results "google-chrome-stable" = some p →
      default_executable env = Except.ok p) ∧
    (env.which_results "google-chrome-stable" = none →
      ∀ p, env.which_results "chromium" = some p →
      default_executable env = Except.ok p) ∧
    (env.which_results "google-chrome-stable" = none →
      env.which_results "chromium" = none →
      env.is_macos = true → env.macos_default_exists = true →
      default_executable env = Except.ok macosDefaultPath) ∧
    (env.which_results "google-chrome-stable" = none →
      env.which_results "chromium" = none →
      (env.is_macos = false ∨ env.macos_default_exists = false) →
      env.is_windows = true →
      ∀ p, env.registry_path = some p → env.registry_path_exists = true →
      default_executable env = Except.ok p) ∧
    (env.which_results "google-chrome-stable" = none →
      env.which_results "chromium" = none →
      (env.is_macos = false ∨ env.macos_default_exists = false) →
      (env.is_windows = false ∨ env.registry_path = none ∨
        env.registry_path_exists = false) →
      default_executable env = Except.error noChromeErrorMsg) := by
  refine ⟨fun b c => rfl, ?_, ?_, ?_, ?_, ?_⟩
  · intro p hp
    simp [default_executable, hp]
  · intro h1 p hp
    simp [default_executable, h1, hp]
  · intro h1 h2 hm he
    simp [default_executable, h1, h2, hm, he]
  · intro h1 h2 hmac hw p hreg hex
    rcases hmac with hm | hm <;>
      simp [default_executable, h1, h2, hm, hw, hreg, hex]
  · intro h1 h2 hmac hwin
    have hcond : ¬((env.is_macos && env.macos_default_exists) = true) := by
      rcases hmac with hm | hm <;> simp [hm]
    rcases hwin with hw | hw | hw
    · simp [default_executable, h1, h2, hcond, hw]
    · simp [default_executable, h1, h2, hcond, hw]
    · simp only [default_executable, h1, h2]
      rw [if_neg hcond]
      split
      · simp [hw]
      · rfl

/-- An environment where `google-chrome-stable` is on PATH. -/
def envChromeOnPath : ExecEnv :=
  { browser_env := none
    browser_env_is_chromium := false
    which_results := fun name =>
      if name = "google-chrome-stable" then some "/usr/bin/google-chrome-stable" else none
    is_macos := false
    macos_default_exists := false
    is_windows := false
    registry_path := none
    registry_path_exists := false }

theorem default_executable_search_order_witness :
    envChromeOnPath.which_results "google-chrome-stable" =
      some "/usr/bin/google-chrome-stable" ∧
    default_executable envChromeOnPath = Except.ok "/usr/bin/google-chrome-stable" :=
  ⟨rfl, (default_executable_search_order envChromeOnPath).2.1
    "/usr/bin/google-chrome-stable" rfl⟩

/-! ## Claims about the waiter and construction -/

theorem waitUntil_all_none {α : Type} (polls : List (Option α))
    (h : ∀ p ∈ polls, p = none) : waitUntil polls = Except.error WaitError.timeout := by
  induction polls with
  | nil => rfl
  | cons p rest ih =>
    have hp := h p (List.mem_cons_self p rest)
    subst hp
    exact ih (fun q hq => h q (List.mem_cons_of_mem _ hq))

theorem waitUntil_first_some {α : Type} (pre : List (Option α)) (a : α)
    (post : List (Option α)) (h : ∀ p ∈ pre, p = none) :
    waitUntil (pre ++ some a :: post) = Except.ok a := by
  induction pre with
  | nil => rfl
  | cons p rest ih =>
    have hp := h p (List.mem_cons_self p rest)
    subst hp
    exact ih (fun q hq => h q (List.mem_cons_of_mem _ hq))

/-- C3: `wait_for_initial_tab` runs on a 10-second deadline; when every
tab-set snapshot observed before the deadline is empty it fails with
`Timeout`, when some snapshot is non-empty it returns the first tab of
the earliest such snapshot, and `Timeout` is the only error it can ever
return. -/
theorem wait_for_initial_tab_spec (obs : List (List Tab)) :
    initialTabTimeoutSecs = 10 ∧
    ((∀ l ∈ obs, l.head? = none) →
      wait_for_initial_tab obs = Except.error WaitError.timeout) ∧
    (∀ pre l post, obs = pre ++ l :: post → (∀ l2 ∈ pre, l2.head? = none) →
      ∀ t, l.head? = some t → wait_for_initial_tab obs = Except.ok t) ∧
    (∀ e, wait_for_initial_tab obs = Except.error e → e = WaitError.timeout) := by
  refine ⟨rfl, ?_, ?_, ?_⟩
  · intro h
    apply waitUntil_all_none
    intro p hp
    obtain ⟨l, hl, rfl⟩ := List.mem_map.mp hp
    exact h l hl
  · rintro pre l post rfl hpre t ht
    unfold wait_for_initial_tab
    rw [List.map_append, List.map_cons, ht]
    apply waitUntil_first_some
    intro p hp
    obtain ⟨l2, hl2, rfl⟩ := List.mem_map.mp hp
    exact hpre l2 hl2
  · intro e _
    cases e
    rfl

theorem wait_for_initial_tab_spec_witness :
    ([[], [Tab.new pageInfoA]] : List (List Tab)) =
      [[]] ++ [Tab.new pageInfoA] :: [] ∧
    (∀ l2 ∈ ([[]] : List (List Tab)), l2.head? = none) ∧
    wait_for_initial_tab [[], [Tab.new pageInfoA]] = Except.ok (Tab.new pageInfoA) :=
  ⟨rfl, by simp,
   (wait_for_initial_tab_spec [[], [Tab.new pageInfoA]]).2.2.1
     [[]] [Tab.new pageInfoA] [] rfl (by simp) (Tab.new pageInfoA) rfl⟩

/-- C6: `create_browser` registers the browser-event listener and spawns
the fan-out worker, then calls `SetDiscoverTargets` with `discover =
true`, then waits for the initial tab; it returns `Ok` exactly when the
`SetDiscoverTargets` call succeeded and the initial tab appeared; a
failed call skips the wait and yields an error, and a missing initial
tab yields the timeout error. -/
theorem create_browser_sequence (setDiscoverOk : Bool) (obs : List (List Tab)) :
    (setDiscoverOk = true →
      (create_browser setDiscoverOk obs).1 =
        [CreateStep.registerBrowserListener, CreateStep.spawnFanOutWorker,
         CreateStep.callSetDiscoverTargets true, CreateStep.waitForInitialTab]) ∧
    (setDiscoverOk = false →
      (create_browser setDiscoverOk obs).1 =
        [CreateStep.registerBrowserListener, CreateStep.spawnFanOutWorker,
         CreateStep.callSetDiscoverTargets true] ∧
      (create_browser setDiscoverOk obs).2 = some CreateError.setDiscoverTargetsFailed) ∧
    ((create_browser setDiscoverOk obs).2 = none ↔
      setDiscoverOk = true ∧ ∃ t, wait_for_initial_tab obs = Except.ok t) ∧
    (setDiscoverOk = true →
      wait_for_initial_tab obs = Except.error WaitError.timeout →
      (create_browser setDiscoverOk obs).2 = some CreateError.initialTabTimeout) := by
  cases setDiscoverOk with
  | false =>
    refine ⟨by simp, fun _ => ⟨rfl, rfl⟩, ?_, by simp⟩
    simp [create_browser]
  | true =>
    cases hw : wait_for_initial_tab obs with
    | ok t =>
      refine ⟨fun _ => ?_, by simp, ?_, fun _ hto => ?_⟩
      · simp [create_browser, hw]
      · simp [create_browser, hw]
      · exact absurd hto (by simp)
    | error e =>
      refine ⟨fun _ => ?_, by simp, ?_, fun _ _ => ?_⟩
      · simp [create_browser, hw]
      · simp [create_browser, hw]
      · cases e
        simp [create_browser, hw]

theorem create_browser_sequence_witness :
    wait_for_initial_tab [[Tab.new pageInfoA]] = Except.ok (Tab.new pageInfoA) ∧
    (create_browser true [[Tab.new pageInfoA]]).1 =
      [CreateStep.registerBrowserListener, CreateStep.spawnFanOutWorker,
       CreateStep.callSetDiscoverTargets true, CreateStep.waitForInitialTab] ∧
    (create_browser true [[Tab.new pageInfoA]]).2 = none :=
  ⟨rfl, (create_browser_sequence true [[Tab.new pageInfoA]]).1 rfl,
   (create_browser_sequence true [[Tab.new pageInfoA]]).2.2.1.mpr
     ⟨rfl, Tab.new pageInfoA, rfl⟩⟩

end HeadlessChrome
